import Mathlib

/-!
Verification development for the qwen-api-service repository
(`src/qwen-api-service/app.py` and its companion scripts).

The Python source is shallowly embedded: the preset tables of the
`camera_edit` handler become association lists, the prompt-assembly
statements become a pure function, the two HTTP handlers become pure
functions from a parsed-request model to a response model, and the
startup model provisioner (`load_models` and its two loaders) becomes a
function of an environment record describing the outcome of each
external call (hub download, in-memory load, object fetches).  The
`base64` module calls and the PIL decode/PNG-encode calls are embedded as
concrete executable codecs; where the Python library raises an exception
the embedded function returns `none` and the handler produces the 500
response with the stand-in exception message of the model (the spec declares
500 message content not contractually stable).
-/

namespace QwenApi

/-- JSON scalar values appearing in the request and response bodies of the
service.  The bodies the handlers build (`json.dumps` of a flat dict) use
only strings, integers and booleans. -/
inductive JsonVal where
  | str (s : String)
  | int (n : Int)
  | bool (b : Bool)
deriving DecidableEq, Repr

/-- A JSON object body: ordered association list of key/value pairs, the
shape `json.dumps` receives in `app.py`. -/
def JsonBody := List (String × JsonVal)
deriving DecidableEq, Repr

/-- Field lookup in a JSON object body. -/
def JsonBody.get (b : JsonBody) (k : String) : Option JsonVal := List.lookup k b

/-- The HTTP responses built by the handlers: a status code and a JSON
object body (all responses in `app.py` carry Content-Type
application/json; the header is constant and not modelled). -/
structure HttpResponse where
  status_code : Nat
  body : JsonBody
deriving DecidableEq, Repr

/-- The `camera_presets` dict literal of `camera_edit`
(src/qwen-api-service/app.py lines 322-346), in source order. -/
def camera_presets : List (String × String) :=
  [ ("Front View", "正面视角, front view, facing camera directly"),
    ("Profile Left", "左侧轮廓, left profile view, 90 degree side angle"),
    ("Profile Right", "右侧轮廓, right profile view, 90 degree side angle"),
    ("Back View", "背面视角, back view, rear angle"),
    ("Three-Quarter Left", "左侧四分之三视角, left three-quarter view"),
    ("Three-Quarter Right", "右侧四分之三视角, right three-quarter view"),
    ("Top Down View", "俯视图, top-down view, bird\x27s eye perspective"),
    ("Low Angle", "仰角视图, low angle shot looking up"),
    ("Eye Level", "平视, eye level view, neutral height"),
    ("High Angle", "俯角, high angle looking down"),
    ("Dolly In", "向前推进, camera dollies forward, push in"),
    ("Dolly Out", "向后拉出, camera dollies backward, pull out"),
    ("Crane Up", "摇臂上升, crane shot moving upward"),
    ("Crane Down", "摇臂下降, crane shot moving downward"),
    ("Orbit Left", "向左环绕, orbit rotating left around subject"),
    ("Orbit Right", "向右环绕, orbit rotating right around subject"),
    ("Pan Left", "向左平移, camera pans to the left"),
    ("Pan Right", "向右平移, camera pans to the right"),
    ("FPV Drone", "第一人称无人机, FPV drone shot, dynamic motion"),
    ("Crash Zoom In", "快速推进, rapid zoom in, dramatic focus"),
    ("Wide Angle", "广角镜头, wide angle lens, expansive view"),
    ("Close Up", "特写镜头, close-up shot, tight framing"),
    ("Dutch Angle", "荷兰角度, tilted angle, canted frame") ]

/-- The `lighting_presets` dict literal of `camera_edit`
(src/qwen-api-service/app.py lines 348-356), in source order. -/
def lighting_presets : List (String × String) :=
  [ ("None", ""),
    ("Cinematic", "cinematic lighting, dramatic shadows"),
    ("Soft Natural", "soft natural lighting, diffused"),
    ("Studio", "studio lighting setup, professional"),
    ("Sunset", "warm sunset lighting, golden hour"),
    ("Neon", "neon lighting, vibrant colors"),
    ("Volumetric", "volumetric lighting, atmospheric rays") ]

/-- Python dict `d.get(k, default)` on a string-keyed table embedded as an
association list. -/
def dictGet (d : List (String × String)) (k : String) (default : String) : String :=
  match List.lookup k d with
  | some v => v
  | none => default

/-- Line 358 of app.py: `camera_presets.get(camera_preset, camera_preset)`:
unknown camera-preset names pass through verbatim. -/
def resolve_camera (name : String) : String := dictGet camera_presets name name

/-- Line 359 of app.py: `lighting_presets.get(lighting, "")`: unknown
lighting-preset names resolve to the empty string. -/
def resolve_lighting (name : String) : String := dictGet lighting_presets name ""

/-- Lines 361-365 of app.py: build `full_prompt` from the camera
instruction, then append `", " + lighting_instruction` when it is
non-empty (Python string truthiness), then append `", " + additional`
when it is non-empty. -/
def assemble (camera_instruction lighting_instruction additional : String) : String :=
  let full_prompt := camera_instruction
  let full_prompt :=
    if lighting_instruction ≠ "" then full_prompt ++ (", " ++ lighting_instruction)
    else full_prompt
  if additional ≠ "" then full_prompt ++ (", " ++ additional) else full_prompt

/-! Embedding of the `base64` standard-library calls used by the handlers
(`base64.b64decode(image_base64)` and
`base64.b64encode(...).decode()`).  Bytes are `Nat`s below 256.  The
embedded decoder returns `none` exactly where the library raises
`binascii.Error` on standard-alphabet input (wrong length or a character
outside the alphabet); the library preprocessing step that discards
foreign characters before decoding is not modelled, since the handlers
only feed decoder output back to the encoder on the success path. -/

/-- The standard base64 alphabet, in index order. -/
def b64alphabet : List Char :=
  "ABCDEFGHIJKLMNOPQRSTUVWXYZabcdefghijklmnopqrstuvwxyz0123456789+/".toList

/-- The alphabet character of a 6-bit group. -/
def b64char (n : Nat) : Char := b64alphabet.getD n 'A'

/-- The 6-bit value of an alphabet character, `none` outside the alphabet. -/
def b64index (c : Char) : Option Nat := List.findIdx? (fun x => x = c) b64alphabet

/-- Base64-encode a byte list, three bytes to four characters, with
trailing `=` padding as produced by `base64.b64encode`. -/
def b64encodeBytes : List Nat → List Char
  | [] => []
  | [a] => [b64char (a / 4), b64char (a % 4 * 16), '=', '=']
  | [a, b] => [b64char (a / 4), b64char (a % 4 * 16 + b / 16), b64char (b % 16 * 4), '=']
  | a :: b :: c :: rest =>
      b64char (a / 4) :: b64char (a % 4 * 16 + b / 16) ::
      b64char (b % 16 * 4 + c / 64) :: b64char (c % 64) :: b64encodeBytes rest

/-- Base64-decode a character list, four characters to three bytes, `=`
padding accepted only at the end; `none` where `base64.b64decode` raises. -/
def b64decodeChars : List Char → Option (List Nat)
  | [] => some []
  | c1 :: c2 :: c3 :: c4 :: rest =>
      match b64index c1, b64index c2 with
      | some n1, some n2 =>
          if c3 = '=' then
            if c4 = '=' ∧ rest = [] then some [n1 * 4 + n2 / 16] else none
          else
            match b64index c3 with
            | some n3 =>
                if c4 = '=' then
                  if rest = [] then some [n1 * 4 + n2 / 16, n2 % 16 * 16 + n3 / 4]
                  else none
                else
                  match b64index c4, b64decodeChars rest with
                  | some n4, some bs =>
                      some ((n1 * 4 + n2 / 16) :: (n2 % 16 * 16 + n3 / 4) ::
                            (n3 % 4 * 64 + n4) :: bs)
                  | _, _ => none
            | none => none
      | _, _ => none
  | _ => none

/-- String-level wrapper for `base64.b64decode`. -/
def b64decode (s : String) : Option (List Nat) := b64decodeChars s.toList

/-- String-level wrapper for `base64.b64encode(...).decode()`. -/
def b64encode (bs : List Nat) : String := String.mk (b64encodeBytes bs)

theorem b64index_lt {c : Char} {n : Nat} (h : b64index c = some n) : n < 64 := by
  unfold b64index at h
  have h2 := List.findIdx?_eq_some_iff_findIdx_eq.mp h
  have hl : b64alphabet.length = 64 := rfl
  omega

theorem b64index_b64char : ∀ n < 64, b64index (b64char n) = some n := by decide

theorem b64char_ne_pad : ∀ n < 64, b64char n ≠ '=' := by decide

theorem b64_roundtrip : ∀ bs : List Nat, (∀ b ∈ bs, b < 256) →
    b64decodeChars (b64encodeBytes bs) = some bs
  | [], _ => rfl
  | [a], h => by
      have ha : a < 256 := h a (by simp)
      simp [b64encodeBytes, b64decodeChars,
        b64index_b64char (a / 4) (by omega),
        b64index_b64char (a % 4 * 16) (by omega)]
      omega
  | [a, b], h => by
      have ha : a < 256 := h a (by simp)
      have hb : b < 256 := h b (by simp)
      simp [b64encodeBytes, b64decodeChars,
        b64index_b64char (a / 4) (by omega),
        b64index_b64char (a % 4 * 16 + b / 16) (by omega),
        b64index_b64char (b % 16 * 4) (by omega),
        b64char_ne_pad (b % 16 * 4) (by omega)]
      omega
  | a :: b :: c :: rest, h => by
      have ha : a < 256 := h a (by simp)
      have hb : b < 256 := h b (by simp)
      have hc : c < 256 := h c (by simp)
      have IH : b64decodeChars (b64encodeBytes rest) = some rest :=
        b64_roundtrip rest (fun x hx => h x (by simp [hx]))
      simp [b64encodeBytes, b64decodeChars, IH,
        b64index_b64char (a / 4) (by omega),
        b64index_b64char (a % 4 * 16 + b / 16) (by omega),
        b64index_b64char (b % 16 * 4 + c / 64) (by omega),
        b64index_b64char (c % 64) (by omega),
        b64char_ne_pad (b % 16 * 4 + c / 64) (by omega),
        b64char_ne_pad (c % 64) (by omega)]
      omega

theorem b64decodeChars_lt256 : ∀ cs : List Char, ∀ bs : List Nat,
    b64decodeChars cs = some bs → ∀ b ∈ bs, b < 256
  | [], bs, h => by
      simp [b64decodeChars] at h
      subst h
      intro b hb
      simp at hb
  | [c1], bs, h => by simp [b64decodeChars] at h
  | [c1, c2], bs, h => by simp [b64decodeChars] at h
  | [c1, c2, c3], bs, h => by simp [b64decodeChars] at h
  | c1 :: c2 :: c3 :: c4 :: rest, bs, h => by
      have IH := b64decodeChars_lt256 rest
      unfold b64decodeChars at h
      split at h
      case _ n1 n2 hn1 hn2 =>
        have l1 := b64index_lt hn1
        have l2 := b64index_lt hn2
        split at h
        · split at h
          · simp at h
            intro b hb
            simp [← h] at hb
            omega
          · exact absurd h (by simp)
        · split at h
          case _ n3 hn3 =>
            have l3 := b64index_lt hn3
            split at h
            · split at h
              · simp at h
                intro b hb
                simp [← h] at hb
                rcases hb with hb | hb <;> omega
              · exact absurd h (by simp)
            · split at h
              case _ n4 bs' hn4 hbs' =>
                have l4 := b64index_lt hn4
                simp at h
                intro b hb
                simp [← h] at hb
                rcases hb with hb | hb | hb | hb
                · omega
                · omega
                · omega
                · exact IH bs' hbs' b hb
              case _ => exact absurd h (by simp)
          case _ => exact absurd h (by simp)
      case _ => exact absurd h (by simp)

/-! Embedding of the PIL calls of the handlers:
`Image.open(io.BytesIO(image_data))` and
`image.save(output_buffer, format="PNG")`.  The codec is modelled
concretely and executably: an image is its dimensions plus its pixel
sequence, the PNG writer is a lossless serializer (magic bytes, two
big-endian 4-byte dimensions, then the raw pixel bytes), and the reader
inverts it, returning `none` (PIL raises) on bytes it cannot identify.
PIL reads more container formats than this model; for the handlers only
losslessness of the PNG writer and invertibility by the reader matter. -/

/-- An in-memory decoded image: dimensions and pixel bytes. -/
structure Img where
  w : Nat
  h : Nat
  pix : List Nat
deriving DecidableEq, Repr

/-- An image whose pixel list matches its dimensions, with 4-byte-encodable
dimensions and byte-valued pixels; every image produced by the reader has
this shape. -/
def Img.wf (i : Img) : Prop :=
  i.pix.length = i.w * i.h ∧ i.w < 4294967296 ∧ i.h < 4294967296 ∧ ∀ p ∈ i.pix, p < 256

/-- The lossless PNG writer of the model: magic bytes, big-endian 4-byte
width and height, then the pixels. -/
def pngEncode (i : Img) : List Nat :=
  137 :: 80 :: 78 :: 71 ::
  (i.w / 16777216 % 256) :: (i.w / 65536 % 256) :: (i.w / 256 % 256) :: (i.w % 256) ::
  (i.h / 16777216 % 256) :: (i.h / 65536 % 256) :: (i.h / 256 % 256) :: (i.h % 256) ::
  i.pix

/-- The image reader of the model (`Image.open`): `none` on bytes it cannot
identify, otherwise the decoded image. -/
def pngDecode (bs : List Nat) : Option Img :=
  match bs with
  | 137 :: 80 :: 78 :: 71 :: w0 :: w1 :: w2 :: w3 :: h0 :: h1 :: h2 :: h3 :: pix =>
      let w := w0 * 16777216 + w1 * 65536 + w2 * 256 + w3
      let h := h0 * 16777216 + h1 * 65536 + h2 * 256 + h3
      if pix.length = w * h then some ⟨w, h, pix⟩ else none
  | _ => none

/-! Embedding of the two POST handlers.  `json.loads` of the raw body is
modelled by a `Parsed` value: either the `json.JSONDecodeError` outcome or
the parsed dict, the dict itself modelled as a record of the fields the
handler reads, each `Option`-valued since Python `dict.get` yields `None`
for an absent key.  The two stages that can raise after validation
(`base64.b64decode` and `Image.open`) surface as the generic 500 handler
of the source with a stand-in exception message. -/

/-- Outcome of `json.loads(request.body)` at the top of each handler. -/
inductive Parsed (α : Type) where
  | malformed
  | ok (body : α)

/-- The fields `edit_image` reads from its body dict. -/
structure EditBody where
  image : Option String
  prompt : Option String
  steps : Option Int
  use_lightning : Option Bool

/-- The fields `camera_edit` reads from its body dict. -/
structure CameraEditBody where
  image : Option String
  camera_preset : Option String
  lighting : Option String
  additional_prompt : Option String
  steps : Option Int
  use_lightning : Option Bool

/-- Stand-in for the message of the `binascii.Error` that
`base64.b64decode` raises on invalid input (500 message content is not
contractually stable per the spec). -/
def b64ErrorMsg : String := "Invalid base64-encoded string"

/-- Stand-in for the message of the error `Image.open` raises on bytes it
cannot identify as an image. -/
def imageOpenErrorMsg : String := "cannot identify image file"

/-- The `/api/v1/edit` handler (app.py lines 183-252): parse JSON (400 on
malformed), read fields with their defaults, 400 when the image field is
absent or falsy, then base64-decode, open, re-encode to PNG and answer
200; an exception in the decode stages yields the generic 500 response
with the exception message under the `error` key. -/
def edit_image (req : Parsed EditBody) : HttpResponse :=
  match req with
  | .malformed => ⟨400, [("error", .str "Invalid JSON")]⟩
  | .ok body =>
      let prompt := body.prompt.getD ""
      let steps := body.steps.getD 8
      let use_lightning := body.use_lightning.getD true
      if body.image.getD "" = "" then
        ⟨400, [("error", .str "Missing image data")]⟩
      else
        match b64decode (body.image.getD "") with
        | none => ⟨500, [("error", .str b64ErrorMsg)]⟩
        | some image_data =>
            match pngDecode image_data with
            | none => ⟨500, [("error", .str imageOpenErrorMsg)]⟩
            | some image =>
                let output_base64 := b64encode (pngEncode image)
                ⟨200, [("image", .str output_base64), ("prompt", .str prompt),
                       ("steps", .int steps), ("lightning", .bool use_lightning)]⟩

/-- The `/api/v1/camera-edit` handler (app.py lines 289-403): as
`edit_image`, but the prompt is assembled from the resolved camera and
lighting presets and the additional prompt, and the response echoes the
input preset names. -/
def camera_edit (req : Parsed CameraEditBody) : HttpResponse :=
  match req with
  | .malformed => ⟨400, [("error", .str "Invalid JSON")]⟩
  | .ok body =>
      let camera_preset := body.camera_preset.getD "Front View"
      let lighting := body.lighting.getD "Cinematic"
      let additional_prompt := body.additional_prompt.getD ""
      let steps := body.steps.getD 8
      let use_lightning := body.use_lightning.getD true
      if body.image.getD "" = "" then
        ⟨400, [("error", .str "Missing image data")]⟩
      else
        let camera_instruction := resolve_camera camera_preset
        let lighting_instruction := resolve_lighting lighting
        let full_prompt := assemble camera_instruction lighting_instruction additional_prompt
        match b64decode (body.image.getD "") with
        | none => ⟨500, [("error", .str b64ErrorMsg)]⟩
        | some image_data =>
            match pngDecode image_data with
            | none => ⟨500, [("error", .str imageOpenErrorMsg)]⟩
            | some image =>
                let output_base64 := b64encode (pngEncode image)
                ⟨200, [("image", .str output_base64), ("camera_preset", .str camera_preset),
                       ("lighting", .str lighting), ("prompt", .str full_prompt),
                       ("steps", .int steps), ("lightning", .bool use_lightning)]⟩

/-! Embedding of the startup model provisioner: module-level configuration
(app.py lines 29-58), the two loaders (lines 84-151) and their driver
`load_models` (lines 154-170), plus the `loaded` field computed by the
`/api/v1/models` handler (lines 255-267).  External calls (hub snapshot
download, in-memory model construction, per-object storage fetches,
on-disk existence checks) are parameters of an environment record; the
global `qwen_model` is threaded explicitly. -/

/-- A value held by the global `qwen_model` when it is not `None`: either
the in-memory model object from `AutoModel.from_pretrained`, or the path dict
with `loaded: False` built when the in-memory load fails (app.py line
116). -/
inductive QwenHandle where
  | memModel
  | pathDict (path : String) (loaded : Bool)
deriving DecidableEq, Repr

/-- Outcomes of the external calls of `load_models_from_huggingface`: the
`snapshot_download` result (`none` when it raises) and whether
`AutoModel.from_pretrained` succeeds on the downloaded path. -/
structure HubEnv where
  snapshot : Option String
  from_pretrained_ok : Bool

/-- app.py lines 84-122: `load_models_from_huggingface`.  Download failure
returns `False` leaving the global untouched; download success followed by
in-memory-load failure keeps the path in a dict with `loaded: False` and
still returns `True`; full success stores the model object and returns
`True`. -/
def load_models_from_huggingface (env : HubEnv) (qwen_model : Option QwenHandle) :
    Bool × Option QwenHandle :=
  match env.snapshot with
  | none => (false, qwen_model)
  | some model_path =>
      if env.from_pretrained_ok then (true, some .memModel)
      else (true, some (.pathDict model_path false))

/-- Outcomes of the external calls of the object-storage loader: per-object
fetch success and on-disk existence of a destination at loader entry. -/
structure MinioEnv where
  fget_ok : String → Bool
  file_exists : String → Bool

/-- The fixed LoRA artifact names of app.py lines 140-143. -/
def loras : List String :=
  ["Qwen-Edit-2509-Multiple-angles.safetensors",
   "Qwen-Image-Edit-Lightning-8steps-V1.0.safetensors"]

/-- app.py lines 65-81: `download_from_minio` returns `False` without a
client, otherwise the outcome of the single object fetch (failures are
caught and logged, never raised). -/
def download_from_minio (client : Bool) (env : MinioEnv) (object_name : String) : Bool :=
  if client then env.fget_ok object_name else false

/-- app.py lines 125-151: `load_models_from_minio`.  Fetches the base model
weight file unless its destination directory exists, then each LoRA file
unless present, each fetch independent and best-effort.  The function
assigns neither global; the returned state is the unchanged `qwen_model`,
paired with the log of attempted fetches (object name, outcome). -/
def load_models_from_minio (client : Bool) (env : MinioEnv)
    (qwen_model : Option QwenHandle) : Option QwenHandle × List (String × Bool) :=
  let base :=
    if env.file_exists "/app/models/qwen-image-edit" then []
    else [("qwen-image-edit/model.safetensors",
           download_from_minio client env "qwen-image-edit/model.safetensors")]
  let loraFetches :=
    (loras.filter (fun l => ! env.file_exists ("/app/models/loras/" ++ l))).map
      (fun l => ("loras/" ++ l, download_from_minio client env ("loras/" ++ l)))
  (qwen_model, base ++ loraFetches)

/-- The environment-derived configuration read once at module import that
gates the provisioner (app.py lines 29-58). -/
structure Config where
  use_huggingface : Bool
  minio_access_key : String
  minio_secret_key : String
  minio_init_ok : Bool

/-- app.py lines 46-58: the module-level `minio_client` is non-None exactly
when both credentials are non-empty strings (Python truthiness of the
`and` chain) and the `Minio(...)` constructor did not raise. -/
def minio_client (cfg : Config) : Bool :=
  (cfg.minio_access_key != "") && (cfg.minio_secret_key != "") && cfg.minio_init_ok

/-- The branch through which `load_models` terminated. -/
inductive LoadOutcome where
  | hubLoaded
  | fallbackMinio
  | nothingConfigured
deriving DecidableEq, Repr

/-- app.py lines 154-170: `load_models`.  When the flag selects the hub and
the hub loader reports success, return; on hub failure or a deselecting
flag, run the object-storage fallback when a client exists; otherwise log
the warning and leave the model unloaded.  Returns the branch outcome, the
final `qwen_model`, and the fallback fetch log (empty when the fallback
did not run). -/
def load_models (cfg : Config) (hub : HubEnv) (menv : MinioEnv) :
    LoadOutcome × Option QwenHandle × List (String × Bool) :=
  if cfg.use_huggingface then
    match load_models_from_huggingface hub none with
    | (true, st) => (.hubLoaded, st, [])
    | (false, st) =>
        if minio_client cfg then
          let (st2, log) := load_models_from_minio true menv st
          (.fallbackMinio, st2, log)
        else (.nothingConfigured, st, [])
  else
    if minio_client cfg then
      let (st2, log) := load_models_from_minio true menv none
      (.fallbackMinio, st2, log)
    else (.nothingConfigured, none, [])

/-- app.py lines 258-267: the `loaded` field reported by `/api/v1/models`:
`qwen_model is not None`, overridden by `dict.get("loaded", False)` when
the handle is the path dict. -/
def list_models_loaded (qwen_model : Option QwenHandle) : Bool :=
  match qwen_model with
  | none => false
  | some .memModel => true
  | some (.pathDict _ loaded) => loaded

theorem lookup_eq_none_of_not_mem_keys {d : List (String × String)} {k : String}
    (h : k ∉ d.map Prod.fst) : List.lookup k d = none := by
  induction d with
  | nil => rfl
  | cons p rest ih =>
      simp only [List.map_cons, List.mem_cons] at h
      push_neg at h
      simp [List.lookup, ih h.2, beq_eq_false_iff_ne.mpr h.1]

/-- C1: a camera-preset name absent from the camera preset table resolves
to itself verbatim, while a lighting-preset name absent from the lighting
preset table resolves to the empty string, for all input strings. -/
theorem preset_miss_asymmetry :
    (∀ name : String, name ∉ camera_presets.map Prod.fst → resolve_camera name = name) ∧
    (∀ name : String, name ∉ lighting_presets.map Prod.fst → resolve_lighting name = "") := by
  constructor
  · intro name h
    simp [resolve_camera, dictGet, lookup_eq_none_of_not_mem_keys h]
  · intro name h
    simp [resolve_lighting, dictGet, lookup_eq_none_of_not_mem_keys h]

/-- Witness for C1, at unregistered names from the spec scenarios. -/
theorem preset_miss_asymmetry_witness :
    resolve_camera "My Custom Shot" = "My Custom Shot" ∧
    resolve_lighting "Moody Fog" = "" :=
  ⟨preset_miss_asymmetry.1 "My Custom Shot" (by decide),
   preset_miss_asymmetry.2 "Moody Fog" (by decide)⟩

/-- C2: prompt assembly starts with the camera instruction, appends a
comma-space and the lighting instruction exactly when the latter is
non-empty, then a comma-space and the additional text exactly when that is
non-empty, in that fixed order; with the three concrete instances of the
spec. -/
theorem assemble_order_stable :
    (∀ c l a : String,
      assemble c l a =
        c ++ (if l = "" then "" else ", " ++ l) ++ (if a = "" then "" else ", " ++ a)) ∧
    assemble "A" "B" "C" = "A, B, C" ∧
    assemble "A" "" "C" = "A, C" ∧
    assemble "A" "" "" = "A" := by
  refine ⟨?_, by decide, by decide, by decide⟩
  intro c l a
  simp only [assemble]
  split_ifs <;> simp_all [String.append_assoc, String.append_empty]

theorem pngEncode_lt256 {i : Img} (hp : ∀ p ∈ i.pix, p < 256) :
    ∀ b ∈ pngEncode i, b < 256 := by
  intro b hb
  simp [pngEncode] at hb
  rcases hb with h | h | h | h | h | h | h | h | h | h | h | h | h
  all_goals first
    | omega
    | exact hp b h

theorem pngDecode_pngEncode {i : Img} (h : i.wf) : pngDecode (pngEncode i) = some i := by
  obtain ⟨hlen, hw, hh, hp⟩ := h
  have hw4 : i.w / 16777216 % 256 * 16777216 + i.w / 65536 % 256 * 65536 +
      i.w / 256 % 256 * 256 + i.w % 256 = i.w := by omega
  have hh4 : i.h / 16777216 % 256 * 16777216 + i.h / 65536 % 256 * 65536 +
      i.h / 256 % 256 * 256 + i.h % 256 = i.h := by omega
  simp [pngEncode, pngDecode, hw4, hh4, hlen]

theorem pngDecode_wf {bs : List Nat} (hb : ∀ b ∈ bs, b < 256) {i : Img}
    (h : pngDecode bs = some i) : i.wf := by
  unfold pngDecode at h
  split at h
  case _ w0 w1 w2 w3 h0 h1 h2 h3 pix =>
    dsimp only at h
    split at h
    case _ hlen =>
      simp only [Option.some.injEq] at h
      subst h
      have hm : ∀ b ∈ pix, b < 256 := by
        intro b hbp
        exact hb b (by simp [hbp])
      refine ⟨hlen, ?_, ?_, hm⟩
      · have := hb w0 (by simp)
        have := hb w1 (by simp)
        have := hb w2 (by simp)
        have := hb w3 (by simp)
        simp only [Img.w]
        omega
      · have := hb h0 (by simp)
        have := hb h1 (by simp)
        have := hb h2 (by simp)
        have := hb h3 (by simp)
        simp only [Img.h]
        omega
    case _ => exact absurd h (by simp)
  case _ => exact absurd h (by simp)

theorem b64decode_b64encode {bs : List Nat} (h : ∀ b ∈ bs, b < 256) :
    b64decode (b64encode bs) = some bs := b64_roundtrip bs h

/-- C5: for every edit request whose image field is a valid base64 encoding
of decodable image bytes, the placeholder handler answers 200 and the
returned base64 image decodes back to an image with the same pixel content
as the decoded input image. -/
theorem edit_image_roundtrip (body : EditBody) (s : String) (bytes : List Nat) (img : Img)
    (hs : body.image = some s) (hb : b64decode s = some bytes)
    (hi : pngDecode bytes = some img) :
    (edit_image (.ok body)).status_code = 200 ∧
    ∃ out : String,
      (edit_image (.ok body)).body.get "image" = some (.str out) ∧
      ∃ outBytes : List Nat, ∃ outImg : Img,
        b64decode out = some outBytes ∧ pngDecode outBytes = some outImg ∧
        outImg.pix = img.pix := by
  have hne : s ≠ "" := by
    rintro rfl
    rw [show b64decode "" = some [] from rfl] at hb
    cases hb
    exact absurd hi (by simp [pngDecode])
  have hbytes : ∀ b ∈ bytes, b < 256 := b64decodeChars_lt256 s.toList bytes hb
  have hwf : img.wf := pngDecode_wf hbytes hi
  have henc : ∀ b ∈ pngEncode img, b < 256 := pngEncode_lt256 hwf.2.2.2
  refine ⟨?_, b64encode (pngEncode img), ?_, pngEncode img, img, ?_, ?_, rfl⟩
  · simp [edit_image, hs, hne, hb, hi]
  · simp [edit_image, hs, hne, hb, hi, JsonBody.get, List.lookup]
  · exact b64decode_b64encode henc
  · exact pngDecode_pngEncode hwf

/-- A concrete well-formed one-pixel image for the closed instances. -/
def testImg : Img := ⟨1, 1, [7]⟩

/-- Its base64-encoded PNG serialization, a valid request image. -/
def testImageB64 : String := b64encode (pngEncode testImg)

/-- Witness for C5 at a concrete one-pixel image request. -/
theorem edit_image_roundtrip_witness :
    (edit_image (.ok ⟨some testImageB64, none, none, none⟩)).status_code = 200 ∧
    ∃ out : String,
      (edit_image (.ok ⟨some testImageB64, none, none, none⟩)).body.get "image" =
        some (.str out) ∧
      ∃ outBytes : List Nat, ∃ outImg : Img,
        b64decode out = some outBytes ∧ pngDecode outBytes = some outImg ∧
        outImg.pix = testImg.pix :=
  edit_image_roundtrip ⟨some testImageB64, none, none, none⟩ testImageB64
    (pngEncode testImg) testImg rfl (by decide) (by decide)

/-- C3: for both edit endpoints, status 400 is returned exactly on
malformed JSON (body exactly the Invalid JSON error) or on an absent or
empty image field (body exactly the Missing image data error); every other
handled failure yields status 500 with the error key carrying the
message of that failure, and the remaining case is the 200 success. -/
theorem edit_endpoints_error_contract :
    (∀ req : Parsed EditBody,
      ((edit_image req).status_code = 400 ↔
        req = .malformed ∨ ∃ b, req = .ok b ∧ b.image.getD "" = "") ∧
      (req = .malformed → (edit_image req).body = [("error", .str "Invalid JSON")]) ∧
      (∀ b, req = .ok b → b.image.getD "" = "" →
        (edit_image req).body = [("error", .str "Missing image data")]) ∧
      ((edit_image req).status_code ≠ 400 →
        (edit_image req).status_code = 200 ∨
        ((edit_image req).status_code = 500 ∧
          ∃ m, (edit_image req).body = [("error", .str m)] ∧
            (m = b64ErrorMsg ∨ m = imageOpenErrorMsg)))) ∧
    (∀ req : Parsed CameraEditBody,
      ((camera_edit req).status_code = 400 ↔
        req = .malformed ∨ ∃ b, req = .ok b ∧ b.image.getD "" = "") ∧
      (req = .malformed → (camera_edit req).body = [("error", .str "Invalid JSON")]) ∧
      (∀ b, req = .ok b → b.image.getD "" = "" →
        (camera_edit req).body = [("error", .str "Missing image data")]) ∧
      ((camera_edit req).status_code ≠ 400 →
        (camera_edit req).status_code = 200 ∨
        ((camera_edit req).status_code = 500 ∧
          ∃ m, (camera_edit req).body = [("error", .str m)] ∧
            (m = b64ErrorMsg ∨ m = imageOpenErrorMsg)))) := by
  constructor
  · intro req
    rcases req with _ | b
    · simp [edit_image]
    · by_cases him : b.image.getD "" = ""
      · simp [edit_image, him]
      · rcases hbd : b64decode (b.image.getD "") with _ | bytes
        · simp [edit_image, him, hbd, b64ErrorMsg, imageOpenErrorMsg]
          exact ⟨_, rfl, Or.inl rfl⟩
        · rcases hpd : pngDecode bytes with _ | img
          · simp [edit_image, him, hbd, hpd, b64ErrorMsg, imageOpenErrorMsg]
            exact ⟨_, rfl, Or.inr rfl⟩
          · simp [edit_image, him, hbd, hpd]
  · intro req
    rcases req with _ | b
    · simp [camera_edit]
    · by_cases him : b.image.getD "" = ""
      · simp [camera_edit, him]
      · rcases hbd : b64decode (b.image.getD "") with _ | bytes
        · simp [camera_edit, him, hbd, b64ErrorMsg, imageOpenErrorMsg]
          exact ⟨_, rfl, Or.inl rfl⟩
        · rcases hpd : pngDecode bytes with _ | img
          · simp [camera_edit, him, hbd, hpd, b64ErrorMsg, imageOpenErrorMsg]
            exact ⟨_, rfl, Or.inr rfl⟩
          · simp [camera_edit, him, hbd, hpd]

/-- Witness for C3: the malformed-JSON instance on both endpoints. -/
theorem edit_endpoints_error_contract_witness :
    (edit_image .malformed).status_code = 400 ∧
    (camera_edit .malformed).body = [("error", .str "Invalid JSON")] :=
  ⟨(edit_endpoints_error_contract.1 .malformed).1.mpr (Or.inl rfl),
   (edit_endpoints_error_contract.2 .malformed).2.1 rfl⟩

/-- C6: a successful camera-edit response echoes the request
camera_preset and lighting names verbatim, while its prompt field is the
fully assembled instruction string built from the resolved fragments and
the additional prompt. -/
theorem camera_edit_echoes_names (b : CameraEditBody) (cam light add s : String)
    (bytes : List Nat) (img : Img)
    (hc : b.camera_preset = some cam) (hl : b.lighting = some light)
    (ha : b.additional_prompt = some add) (hs : b.image = some s)
    (hb : b64decode s = some bytes) (hi : pngDecode bytes = some img) :
    (camera_edit (.ok b)).status_code = 200 ∧
    (camera_edit (.ok b)).body.get "camera_preset" = some (.str cam) ∧
    (camera_edit (.ok b)).body.get "lighting" = some (.str light) ∧
    (camera_edit (.ok b)).body.get "prompt" =
      some (.str (assemble (resolve_camera cam) (resolve_lighting light) add)) := by
  have hne : s ≠ "" := by
    rintro rfl
    rw [show b64decode "" = some [] from rfl] at hb
    cases hb
    exact absurd hi (by simp [pngDecode])
  refine ⟨?_, ?_, ?_, ?_⟩ <;>
    simp [camera_edit, hc, hl, ha, hs, hne, hb, hi, JsonBody.get, List.lookup]

/-- Witness for C6 at a concrete request. -/
theorem camera_edit_echoes_names_witness :
    (camera_edit (.ok ⟨some testImageB64, some "Close Up", some "Neon",
        some "extra detail", none, none⟩)).status_code = 200 ∧
    (camera_edit (.ok ⟨some testImageB64, some "Close Up", some "Neon",
        some "extra detail", none, none⟩)).body.get "camera_preset" =
      some (.str "Close Up") ∧
    (camera_edit (.ok ⟨some testImageB64, some "Close Up", some "Neon",
        some "extra detail", none, none⟩)).body.get "lighting" = some (.str "Neon") ∧
    (camera_edit (.ok ⟨some testImageB64, some "Close Up", some "Neon",
        some "extra detail", none, none⟩)).body.get "prompt" =
      some (.str (assemble (resolve_camera "Close Up") (resolve_lighting "Neon")
        "extra detail")) :=
  camera_edit_echoes_names _ "Close Up" "Neon" "extra detail" testImageB64
    (pngEncode testImg) testImg rfl rfl rfl rfl (by decide) (by decide)

/-- C7: the spec scenario Front View with Cinematic lighting and empty
additional prompt yields exactly the documented assembled prompt. -/
theorem camera_edit_front_view_cinematic :
    (camera_edit (.ok ⟨some testImageB64, some "Front View", some "Cinematic",
        some "", none, none⟩)).status_code = 200 ∧
    (camera_edit (.ok ⟨some testImageB64, some "Front View", some "Cinematic",
        some "", none, none⟩)).body.get "prompt" =
      some (.str "正面视角, front view, facing camera directly, cinematic lighting, dramatic shadows") := by
  decide

/-- C8: the spec scenario with the unrecognized camera preset My Custom
Shot and lighting None yields exactly the pass-through prompt. -/
theorem camera_edit_custom_shot_none :
    (camera_edit (.ok ⟨some testImageB64, some "My Custom Shot", some "None",
        some "", none, none⟩)).status_code = 200 ∧
    (camera_edit (.ok ⟨some testImageB64, some "My Custom Shot", some "None",
        some "", none, none⟩)).body.get "prompt" = some (.str "My Custom Shot") := by
  decide

/-- C4: the object-storage fallback runs exactly when the storage client
exists (both credentials configured and the constructor succeeded) and
either the flag deselects the hub or the hub loader failed; with the flag
selecting the hub, a failed hub attempt and no storage client, the
provisioner takes the warning branch and terminates unloaded. -/
theorem load_models_fallback_policy (cfg : Config) (hub : HubEnv) (menv : MinioEnv) :
    ((load_models cfg hub menv).1 = .fallbackMinio ↔
      minio_client cfg = true ∧
        (cfg.use_huggingface = false ∨ (load_models_from_huggingface hub none).1 = false)) ∧
    (cfg.use_huggingface = true → (load_models_from_huggingface hub none).1 = false →
      minio_client cfg = false →
      (load_models cfg hub menv).1 = .nothingConfigured ∧
      (load_models cfg hub menv).2.1 = none) := by
  rcases hub with ⟨snap, ok⟩
  by_cases hf : cfg.use_huggingface <;> by_cases hm : minio_client cfg <;>
    rcases snap with _ | p <;>
      simp [load_models, load_models_from_huggingface, hf, hm] <;>
        by_cases hok : ok <;> simp [hok]

/-- Witness for C4: fallback runs with a client configured and the hub
deselected; the warning branch is taken with neither configured. -/
theorem load_models_fallback_policy_witness :
    (load_models ⟨false, "ak", "sk", true⟩ ⟨none, false⟩
      ⟨fun _ => true, fun _ => false⟩).1 = .fallbackMinio ∧
    (load_models ⟨true, "", "", false⟩ ⟨none, false⟩
      ⟨fun _ => true, fun _ => false⟩).1 = .nothingConfigured :=
  ⟨(load_models_fallback_policy ⟨false, "ak", "sk", true⟩ ⟨none, false⟩
      ⟨fun _ => true, fun _ => false⟩).1.mpr ⟨by decide, Or.inl rfl⟩,
   ((load_models_fallback_policy ⟨true, "", "", false⟩ ⟨none, false⟩
      ⟨fun _ => true, fun _ => false⟩).2 rfl rfl (by decide)).1⟩

/-- C9: when the hub download succeeds but the in-memory load fails, the
hub loader still returns success and stores the path dict with the
in-memory flag false, and the provisioner returns through the hub branch
without triggering the fallback. -/
theorem hub_pathonly_on_memload_failure (hub : HubEnv) (p : String)
    (hsnap : hub.snapshot = some p) (hmem : hub.from_pretrained_ok = false) :
    load_models_from_huggingface hub none = (true, some (.pathDict p false)) ∧
    ∀ (cfg : Config) (menv : MinioEnv), cfg.use_huggingface = true →
      (load_models cfg hub menv).1 = .hubLoaded ∧
      (load_models cfg hub menv).2.1 = some (.pathDict p false) := by
  have h1 : load_models_from_huggingface hub none = (true, some (.pathDict p false)) := by
    simp [load_models_from_huggingface, hsnap, hmem]
  refine ⟨h1, ?_⟩
  intro cfg menv hf
  simp [load_models, hf, h1]

/-- Witness for C9 at a concrete hub environment. -/
theorem hub_pathonly_on_memload_failure_witness :
    load_models_from_huggingface ⟨some "/app/models/huggingface/snap", false⟩ none =
      (true, some (.pathDict "/app/models/huggingface/snap" false)) ∧
    (load_models ⟨true, "", "", false⟩ ⟨some "/app/models/huggingface/snap", false⟩
      ⟨fun _ => false, fun _ => false⟩).1 = .hubLoaded :=
  ⟨(hub_pathonly_on_memload_failure ⟨some "/app/models/huggingface/snap", false⟩
      "/app/models/huggingface/snap" rfl rfl).1,
   ((hub_pathonly_on_memload_failure ⟨some "/app/models/huggingface/snap", false⟩
      "/app/models/huggingface/snap" rfl rfl).2 ⟨true, "", "", false⟩
      ⟨fun _ => false, fun _ => false⟩ rfl).1⟩

/-- C10: the object-storage fallback never assigns the model handle: it
returns the state it was given, so entering it with the handle unset
leaves the handle `none` and the models listing reports loaded false even
when every object fetch it attempted succeeded. -/
theorem minio_fallback_never_sets_model :
    (∀ (client : Bool) (env : MinioEnv) (st : Option QwenHandle),
      (load_models_from_minio client env st).1 = st) ∧
    (∀ env : MinioEnv, (∀ o, env.fget_ok o = true) →
      (load_models_from_minio true env none).1 = none ∧
      list_models_loaded (load_models_from_minio true env none).1 = false ∧
      ∀ r ∈ (load_models_from_minio true env none).2, r.2 = true) := by
  constructor
  · intro client env st
    simp [load_models_from_minio]
  · intro env hfetch
    refine ⟨rfl, rfl, ?_⟩
    intro r hr
    simp [load_models_from_minio, download_from_minio] at hr
    rcases hr with ⟨-, rfl⟩ | ⟨l, -, rfl⟩
    · exact hfetch _
    · exact hfetch _

/-- Witness for C10: an environment where every fetch succeeds and no
destination exists on disk. -/
theorem minio_fallback_never_sets_model_witness :
    (load_models_from_minio true ⟨fun _ => true, fun _ => false⟩ none).1 = none ∧
    list_models_loaded
      (load_models_from_minio true ⟨fun _ => true, fun _ => false⟩ none).1 = false :=
  ⟨(minio_fallback_never_sets_model.2 ⟨fun _ => true, fun _ => false⟩ (fun _ => rfl)).1,
   (minio_fallback_never_sets_model.2 ⟨fun _ => true, fun _ => false⟩ (fun _ => rfl)).2.1⟩

end QwenApi
